import Mathlib

/-!
Verification of the iPixel MQTT bridge (`mqtt.py`).

We give a shallow embedding of the bridge's state and of its central
dispatch function `handle_set_payload`, together with the websocket
session helpers `ws_connect`, `ensure_server`, `ws_send` and the MQTT
publisher `publish_states`, and prove the specified properties about
them.

Python values that flow through the bridge (results of `json.loads`,
entries of `current_states`, the `last_text` global) are modelled by the
type `JVal`.  Python dictionaries are modelled as insertion-ordered
association lists with the exact Python semantics: assignment to an
existing key updates the value in place, assignment to a fresh key
appends at the end.  The outside world (websocket transport, spawned
backing process, MQTT broker) is modelled by an environment of success
flags plus effect logs carried in the bridge state.
-/

namespace IPixel

/-- A Python value as produced by `json.loads` (plus raw strings):
`None`, `bool`, `int`, `str`, `list`, `dict`.  Floating point numbers are
outside the model (no claim involves them). -/
inductive JVal where
  | null : JVal
  | bool (b : Bool) : JVal
  | num (n : Int) : JVal
  | str (s : String) : JVal
  | arr (xs : List JVal) : JVal
  | obj (kvs : List (String × JVal)) : JVal

/-- Is this value the Python string `s`?  Models Python `v == "s"` for a
string literal `"s"` (false on any non-string value). -/
def JVal.isStrEq : JVal → String → Bool
  | .str t, s => t = s
  | _, _ => false

/-- Is this value Python `None`?  Models `v is None`. -/
def JVal.isNull : JVal → Bool
  | .null => true
  | _ => false

/-- Python `s.upper()` (ASCII; identical to Python on the inputs in
scope). -/
def pyUpper (s : String) : String := String.mk (s.data.map Char.toUpper)

/-- Python `s.startswith(p)`. -/
def startsWithL : List Char → List Char → Bool
  | _, [] => true
  | [], _ :: _ => false
  | c :: cs, p :: ps => c = p && startsWithL cs ps

def pyStartsWith (s p : String) : Bool := startsWithL s.data p.data

/-- Python `s[n:]`. -/
def pyDrop (s : String) (n : Nat) : String := String.mk (s.data.drop n)

/-- Python truthiness of a value (`if data["params"]:` etc.). -/
def truthy : JVal → Bool
  | .null => false
  | .bool b => b
  | .num n => n ≠ 0
  | .str s => s ≠ ""
  | .arr xs => !xs.isEmpty
  | .obj kvs => !kvs.isEmpty

/-- First-match lookup in an association list (Python `d[k]` / `d.get(k)`
on dicts, whose keys are unique). -/
def lookupJ : List (String × JVal) → String → Option JVal
  | [], _ => none
  | (k, v) :: rest, key => if k = key then some v else lookupJ rest key

/-- Python `k in d`. -/
def hasKeyL (l : List (String × JVal)) (key : String) : Bool :=
  (lookupJ l key).isSome

/-- Python dict assignment `d[k] = v`: update in place if the key exists,
otherwise append at the end. -/
def dictSet : List (String × JVal) → String → JVal → List (String × JVal)
  | [], key, v => [(key, v)]
  | (k, w) :: rest, key, v =>
      if k = key then (k, v) :: rest else (k, w) :: dictSet rest key v

/-- The key sequence of a dict. -/
def keysOf (l : List (String × JVal)) : List String := l.map Prod.fst

mutual
/-- Python `str()` of a value (`str(data)`, `f"{k}={v}"`, publishing). -/
def pyStr : JVal → String
  | .null => "None"
  | .bool b => if b then "True" else "False"
  | .num n => toString n
  | .str s => s
  | .arr xs => "[" ++ String.intercalate ", " (pyReprList xs) ++ "]"
  | .obj kvs => "\x7b" ++ String.intercalate ", " (pyReprObj kvs) ++ "\x7d"

/-- Python `repr()` of a value, used by `str` on containers.  String
escaping inside `repr` is not modelled (no claim depends on it). -/
def pyRepr : JVal → String
  | .str s => "'" ++ s ++ "'"
  | v => pyStrAux v

def pyStrAux : JVal → String
  | .null => "None"
  | .bool b => if b then "True" else "False"
  | .num n => toString n
  | .str s => s
  | .arr xs => "[" ++ String.intercalate ", " (pyReprList xs) ++ "]"
  | .obj kvs => "\x7b" ++ String.intercalate ", " (pyReprObj kvs) ++ "\x7d"

def pyReprList : List JVal → List String
  | [] => []
  | x :: xs => pyRepr x :: pyReprList xs

def pyReprObj : List (String × JVal) → List String
  | [] => []
  | (k, v) :: kvs => ("'" ++ k ++ "': " ++ pyRepr v) :: pyReprObj kvs
end

/-! ### A model of `json.loads`

`handle_set_payload` first tries `json.loads(payload)` and falls back to
the raw string.  We model the parser faithfully for null / booleans /
integers / strings / arrays / objects, including JSON's rejection of
leading zeros and of trailing garbage.  Floating point numbers and the
rarer string escapes (`\b`, `\f`, `\uXXXX`) are not modelled: on such
inputs our parser fails where Python's would succeed. No claim exercises
those inputs. -/

/-- Skip JSON whitespace. -/
def skipWs : List Char → List Char
  | c :: cs =>
      if c = ' ' ∨ c = '\t' ∨ c = '\n' ∨ c = '\r' then skipWs cs else c :: cs
  | [] => []

/-- Parse the body of a JSON string after the opening quote. -/
def parseStringBody : List Char → Option (String × List Char)
  | [] => none
  | '"' :: cs => some ("", cs)
  | '\\' :: e :: cs =>
      let ec? : Option Char :=
        if e = '"' then some '"'
        else if e = '\\' then some '\\'
        else if e = '/' then some '/'
        else if e = 'n' then some '\n'
        else if e = 't' then some '\t'
        else if e = 'r' then some '\r'
        else none
      match ec? with
      | none => none
      | some ec =>
          (parseStringBody cs).map (fun p => (String.mk (ec :: p.1.data), p.2))
  | c :: cs =>
      (parseStringBody cs).map (fun p => (String.mk (c :: p.1.data), p.2))

/-- Take a maximal run of decimal digits. -/
def takeDigits : List Char → (List Char × List Char)
  | c :: cs =>
      if c.isDigit then
        let p := takeDigits cs
        (c :: p.1, p.2)
      else ([], c :: cs)
  | [] => ([], [])

/-- Parse the digits of a JSON integer (sign already consumed).  Rejects
leading zeros and anything float-shaped. -/
def parseNumTail (neg : Bool) (cs : List Char) : Option (JVal × List Char) :=
  let p := takeDigits cs
  match p.1, p.2 with
  | [], _ => none
  | '0' :: _ :: _, _ => none
  | _, '.' :: _ => none
  | _, 'e' :: _ => none
  | _, 'E' :: _ => none
  | ds, rest =>
      let n : Nat := ds.foldl (fun a c => a * 10 + (c.toNat - 48)) 0
      some (.num (if neg then -(n : Int) else (n : Int)), rest)

mutual
/-- Parse one JSON value (fuel-indexed recursive descent). -/
def parseVal : Nat → List Char → Option (JVal × List Char)
  | 0, _ => none
  | fuel + 1, cs =>
      match skipWs cs with
      | 'n' :: 'u' :: 'l' :: 'l' :: rest => some (.null, rest)
      | 't' :: 'r' :: 'u' :: 'e' :: rest => some (.bool true, rest)
      | 'f' :: 'a' :: 'l' :: 's' :: 'e' :: rest => some (.bool false, rest)
      | '"' :: rest => (parseStringBody rest).map (fun p => (.str p.1, p.2))
      | '[' :: rest =>
          (match skipWs rest with
           | ']' :: r2 => some (.arr [], r2)
           | r2 => (parseArrItems fuel r2).map (fun p => (.arr p.1, p.2)))
      | '\x7b' :: rest =>
          (match skipWs rest with
           | '\x7d' :: r2 => some (.obj [], r2)
           | r2 =>
               (parseObjItems fuel r2).map (fun p =>
                 (.obj (p.1.foldl (fun d kv => dictSet d kv.1 kv.2) []), p.2)))
      | '-' :: rest => parseNumTail true rest
      | c :: rest => if c.isDigit then parseNumTail false (c :: rest) else none
      | [] => none

/-- Parse the comma-separated items of a JSON array (after `[`). -/
def parseArrItems : Nat → List Char → Option (List JVal × List Char)
  | 0, _ => none
  | fuel + 1, cs =>
      (parseVal fuel cs).bind (fun p =>
        match skipWs p.2 with
        | ',' :: r2 => (parseArrItems fuel r2).map (fun q => (p.1 :: q.1, q.2))
        | ']' :: r2 => some ([p.1], r2)
        | _ => none)

/-- Parse the comma-separated members of a JSON object (after `{`),
returned in textual order. -/
def parseObjItems : Nat → List Char → Option (List (String × JVal) × List Char)
  | 0, _ => none
  | fuel + 1, cs =>
      match skipWs cs with
      | '"' :: r =>
          (parseStringBody r).bind (fun pk =>
            match skipWs pk.2 with
            | ':' :: r3 =>
                (parseVal fuel r3).bind (fun pv =>
                  match skipWs pv.2 with
                  | ',' :: r5 =>
                      (parseObjItems fuel r5).map (fun q =>
                        ((pk.1, pv.1) :: q.1, q.2))
                  | '\x7d' :: r5 => some ([(pk.1, pv.1)], r5)
                  | _ => none)
            | _ => none)
      | _ => none
end

/-- Model of `json.loads`: whole-input parse or failure. -/
def json_loads (s : String) : Option JVal :=
  match parseVal (s.data.length + 1) s.data with
  | some (v, rest) => if (skipWs rest).isEmpty then some v else none
  | none => none

/-- Lines 183–186: `data = json.loads(payload)` falling back to the raw
payload string on any parse error. -/
def dataOf (payload : String) : JVal :=
  (json_loads payload).getD (.str payload)

/-! ### Bridge state, transport environment and session helpers -/

/-- Outcome flags for the external transport during one dispatch: whether
the liveness ping inside `ws_connect` succeeds, whether a fresh
`websocket.connect` succeeds, and whether `ws.send` of a command payload
succeeds. -/
structure Env where
  ping_ok : Bool
  connect_ok : Bool
  send_ok : Bool

/-- The fully healthy transport. -/
def okEnv : Env := ⟨true, true, true⟩

/-- The global mutable state of `mqtt.py` plus logs of its externally
observable effects: `states` is `current_states`, `last_text` the global
of the same name (a Python object, not necessarily a string), `ws`
whether the websocket handle is non-`None`.  `sends` logs the command
payloads successfully written by `ws_send`, `pings` the successful
liveness probes of `ws_connect`, `spawns` the `start_server_once` calls,
and `pubs` the MQTT `client.publish` calls as (topic, payload) pairs. -/
structure St where
  states : List (String × JVal)
  last_text : JVal
  ws : Bool
  sends : List JVal
  pings : Nat
  spawns : Nat
  pubs : List (String × JVal)

/-- Lines 53–64: the `DEFAULTS` dict. -/
def DEFAULTS : List (String × JVal) :=
  [("power", .bool false), ("brightness", .num 80), ("speed", .num 75),
   ("animation", .num 1), ("color", .str "ffffff"), ("font", .str "gnufont"),
   ("matrix_height", .num 16), ("font_size", .null),
   ("font_offset_x", .num 0), ("font_offset_y", .num 0)]

/-- Line 67–70: the initial global state (`current_states = DEFAULTS.copy()`,
`last_text = ""`, `ws = None`), with empty effect logs. -/
def initSt : St :=
  { states := DEFAULTS, last_text := .str "", ws := false,
    sends := [], pings := 0, spawns := 0, pubs := [] }

/-- The normalized device id (`DEVICE_MAC` with separators stripped,
lower-cased).  The concrete value comes from process configuration; the
claims do not depend on it. -/
def DEVICE_ID_SAFE : String := "device"

def BASE_TOPIC : String := "ipixel/" ++ DEVICE_ID_SAFE
def STATE_TOPIC : String := BASE_TOPIC ++ "/state"
def LAST_TEXT_TOPIC : String := BASE_TOPIC ++ "/last_text"

/-- Lines 38–51: the `TOPICS` dict, as a lookup function. -/
def TOPICS_get (k : String) : Option String :=
  if k = "power" ∨ k = "brightness" ∨ k = "speed" ∨ k = "animation" ∨
     k = "color" ∨ k = "font" ∨ k = "matrix_height" ∨ k = "font_size" ∨
     k = "font_offset_x" ∨ k = "font_offset_y" ∨ k = "send_text" ∨ k = "clear"
  then some (BASE_TOPIC ++ "/" ++ k) else none

mutual
/-- Model of `json.dumps` with default separators.  String escaping
beyond `"` and `\` is not modelled (no claim depends on it). -/
def json_dumps : JVal → String
  | .null => "null"
  | .bool b => if b then "true" else "false"
  | .num n => toString n
  | .str s => "\"" ++ s ++ "\""
  | .arr xs => "[" ++ String.intercalate ", " (dumpsList xs) ++ "]"
  | .obj kvs => "\x7b" ++ String.intercalate ", " (dumpsObj kvs) ++ "\x7d"

def dumpsList : List JVal → List String
  | [] => []
  | x :: xs => json_dumps x :: dumpsList xs

def dumpsObj : List (String × JVal) → List String
  | [] => []
  | (k, v) :: kvs => ("\"" ++ k ++ "\": " ++ json_dumps v) :: dumpsObj kvs
end

/-- A `{"command": name, "params": ps}` wire object. -/
def mkCmd (name : String) (ps : List JVal) : JVal :=
  .obj [("command", .str name), ("params", .arr ps)]

/-- Lines 80–101, `ws_connect()`: if a handle exists, probe it with a
ping and keep it on success; otherwise (or on probe failure) open a fresh
connection.  Returns the state and whether a handle exists afterwards. -/
def ws_connect (env : Env) (st : St) : St × Bool :=
  if st.ws then
    if env.ping_ok then ({ st with pings := st.pings + 1 }, true)
    else if env.connect_ok then ({ st with ws := true }, true)
    else ({ st with ws := false }, false)
  else
    if env.connect_ok then ({ st with ws := true }, true)
    else ({ st with ws := false }, false)

/-- Lines 103–106, `ensure_server()`: connect; on failure spawn the
backing process once and connect again. -/
def ensure_server (env : Env) (st : St) : St :=
  let p := ws_connect env st
  if p.2 then p.1
  else (ws_connect env { p.1 with spawns := p.1.spawns + 1 }).1

/-- Lines 108–123, `ws_send(payload)`: connect lazily if no handle,
give up silently if still none, transmit otherwise.  A transmission
failure is caught and only logged — the handle is NOT dropped. -/
def ws_send (env : Env) (payload : JVal) (st : St) : St :=
  let st1 := if st.ws then st else (ws_connect env st).1
  if st1.ws then
    if env.send_ok then { st1 with sends := st1.sends ++ [payload] } else st1
  else st1

/-- Lines 170–176, `publish_states()`: one retained per-attribute message
for every state key that has a topic, the aggregate JSON document, and
the last text. -/
def publish_states (st : St) : St :=
  { st with pubs := st.pubs ++
      (st.states.filterMap (fun kv =>
        (TOPICS_get kv.1).map (fun t => (t ++ "/state", JVal.str (pyStr kv.2))))) ++
      [(STATE_TOPIC, .str (json_dumps (JVal.obj st.states))),
       (LAST_TEXT_TOPIC, st.last_text)] }

/-! ### The command translator `handle_set_payload` -/

/-- A Python exception escaping `handle_set_payload`. -/
inductive PyErr where
  | typeError
  | keyError
  | indexError
  | attributeError
  | unicodeDecodeError
deriving DecidableEq

def JVal.isObj : JVal → Bool
  | .obj _ => true
  | _ => false

def objFields : JVal → List (String × JVal)
  | .obj kvs => kvs
  | _ => []

/-- Python subscripting `x[0]` on a JSON-derived value: first element of
a list, first character of a string; `KeyError` on a dict (JSON object
keys are strings, never `0`), `TypeError` otherwise. -/
def subscript0 : JVal → Except PyErr JVal
  | .arr (x :: _) => .ok x
  | .arr [] => .error .indexError
  | .str s => if s = "" then .error .indexError else .ok (.str (String.mk (s.data.take 1)))
  | .obj _ => .error .keyError
  | _ => .error .typeError

/-- Line 232: `param_keys`. -/
def paramKeys : List String := ["color", "speed", "animation", "font", "matrix_height"]

/-- Lines 234–238: the `key=value` tail of the flat-dialect `send_text`
params — prefer a non-`None` value from the payload, fall back to a
non-`None` value from `current_states` (already merged). -/
def buildParamTail (fields states : List (String × JVal)) : List JVal :=
  paramKeys.filterMap (fun k =>
    if hasKeyL fields k ∧ ¬((lookupJ fields k).getD .null).isNull then
      some (.str (k ++ "=" ++ pyStr ((lookupJ fields k).getD .null)))
    else
      match lookupJ states k with
      | some v => if v.isNull then none else some (.str (k ++ "=" ++ pyStr v))
      | none => none)

/-- Lines 225–227: `for k, v in data.items(): if k in current_states:
current_states[k] = v`. -/
def mergeStates (states fields : List (String × JVal)) : List (String × JVal) :=
  fields.foldl (fun acc kv => if hasKeyL acc kv.1 then dictSet acc kv.1 kv.2 else acc) states

/-- Lines 188–266 of `handle_set_payload`, after the JSON-parse-or-raw
step has produced `data`.  Returns the final state and the exception
escaping to the caller, if any (Python global mutations made before a
raise persist, hence the state is returned in every case). -/
def handle_data (key : String) (data : JVal) (env : Env) (st : St) : St × Option PyErr :=
  if key = "set" ∧ data.isObj then
    let fields := objFields data
    if hasKeyL fields "command" ∧ hasKeyL fields "params" then
      let c := (lookupJ fields "command").getD .null
      let ps := (lookupJ fields "params").getD .null
      if c.isStrEq "led_on" then
        (publish_states (ws_send env (mkCmd "led_on" []) st), none)
      else if c.isStrEq "led_off" then
        (publish_states (ws_send env (mkCmd "led_off" []) st), none)
      else if c.isStrEq "send_text" ∧ truthy ps then
        match subscript0 ps with
        | .error e => (st, some e)
        | .ok (.str s) =>
            let lt := if pyStartsWith s "text=" then pyDrop s 5 else s
            let st1 := { st with last_text := .str lt }
            (publish_states (ws_send env data (ensure_server env st1)), none)
        | .ok _ => (st, some .attributeError)
      else (publish_states st, none)
    else if hasKeyL fields "send_text" then
      let st1 := { st with last_text := (lookupJ fields "send_text").getD .null }
      let newStates := mergeStates st1.states fields
      let params := st1.last_text :: buildParamTail fields newStates
      let st2 := ensure_server env { st1 with states := newStates }
      (publish_states (ws_send env (mkCmd "send_text" params) st2), none)
    else (publish_states st, none)
  else if key = "send_text" then
    let st1 := { st with last_text := data }
    if truthy ((lookupJ st1.states "power").getD .null) then
      (publish_states (ws_send env (mkCmd "send_text" [data]) (ensure_server env st1)), none)
    else (publish_states st1, none)
  else if key = "power" then
    let b : Bool := decide (pyUpper (pyStr data) = "ON" ∨ pyUpper (pyStr data) = "1" ∨
      pyUpper (pyStr data) = "TRUE")
    let st1 := { st with states := dictSet st.states "power" (.bool b) }
    let st2 := ensure_server env st1
    if b then
      (publish_states (ws_send env (mkCmd "send_text" [.str " "]) st2), none)
    else
      (publish_states (ws_send env (mkCmd "clear" []) st2), none)
  else if hasKeyL st.states key then
    (publish_states { st with states := dictSet st.states key data }, none)
  else (publish_states st, none)

/-- Lines 181–266 of `handle_set_payload(key, payload)`, after line
180's decode step has produced a payload string (`handle_set_payload_raw`
models the full function including the decode). -/
def handle_set_payload (key : String) (payload : String) (env : Env) (st : St) :
    St × Option PyErr :=
  handle_data key (dataOf payload) env st

/-- The raw payload as delivered to `handle_set_payload`: `bytes` (as
MQTT delivers it, a byte-value list) or `str` — line 180 distinguishes
them with `isinstance(payload, bytes)`. -/
inductive Payload where
  | bytes (bs : List Nat) : Payload
  | str (s : String) : Payload

/-- Model of strict UTF-8 decoding of a byte list, as in Python's
`bytes.decode()`: rejects stray continuation bytes, truncated sequences,
overlong encodings, surrogate code points and values above U+10FFFF. -/
def utf8DecodeAux : List Nat → Option (List Char)
  | [] => some []
  | b :: bs =>
      if b < 0x80 then
        (utf8DecodeAux bs).map (fun cs => Char.ofNat b :: cs)
      else if 0xC2 ≤ b ∧ b ≤ 0xDF then
        match bs with
        | b1 :: bs1 =>
            if 0x80 ≤ b1 ∧ b1 ≤ 0xBF then
              (utf8DecodeAux bs1).map (fun cs =>
                Char.ofNat ((b - 0xC0) * 0x40 + (b1 - 0x80)) :: cs)
            else none
        | [] => none
      else if 0xE0 ≤ b ∧ b ≤ 0xEF then
        match bs with
        | b1 :: b2 :: bs2 =>
            if (if b = 0xE0 then 0xA0 else 0x80) ≤ b1 ∧
               b1 ≤ (if b = 0xED then 0x9F else 0xBF) ∧
               0x80 ≤ b2 ∧ b2 ≤ 0xBF then
              (utf8DecodeAux bs2).map (fun cs =>
                Char.ofNat ((b - 0xE0) * 0x1000 + (b1 - 0x80) * 0x40 + (b2 - 0x80)) :: cs)
            else none
        | _ => none
      else if 0xF0 ≤ b ∧ b ≤ 0xF4 then
        match bs with
        | b1 :: b2 :: b3 :: bs3 =>
            if (if b = 0xF0 then 0x90 else 0x80) ≤ b1 ∧
               b1 ≤ (if b = 0xF4 then 0x8F else 0xBF) ∧
               0x80 ≤ b2 ∧ b2 ≤ 0xBF ∧ 0x80 ≤ b3 ∧ b3 ≤ 0xBF then
              (utf8DecodeAux bs3).map (fun cs =>
                Char.ofNat ((b - 0xF0) * 0x40000 + (b1 - 0x80) * 0x1000 +
                  (b2 - 0x80) * 0x40 + (b3 - 0x80)) :: cs)
            else none
        | _ => none
      else none

def utf8Decode (bs : List Nat) : Option String :=
  (utf8DecodeAux bs).map String.mk

/-- Line 180: `payload.decode() if isinstance(payload, bytes) else
str(payload)` — `none` when the strict decode raises UnicodeDecodeError
(`str(payload)` on a string is the string itself). -/
def decodeOf : Payload → Option String
  | .bytes bs => utf8Decode bs
  | .str s => some s

/-- Lines 178–266, the full `handle_set_payload(key, payload)` on a raw
bytes-or-str payload: line 180's decode runs first and its
UnicodeDecodeError — raised outside any try — escapes to the caller
before any dispatch; otherwise lines 181–266 run on the decoded
string. -/
def handle_set_payload_raw (key : String) (payload : Payload) (env : Env) (st : St) :
    St × Option PyErr :=
  match decodeOf payload with
  | none => (st, some .unicodeDecodeError)
  | some s => handle_set_payload key s env st

/-- Line 33: the base command topic. -/
def CMD_TOPIC : String := BASE_TOPIC ++ "/set"

/-- Line 38–51 key list, in insertion order (used by the `on_message`
reverse lookup). -/
def topicKeys : List String :=
  ["power", "brightness", "speed", "animation", "color", "font", "matrix_height",
   "font_size", "font_offset_x", "font_offset_y", "send_text", "clear"]

/-- Lines 280–304, `on_message`: resolve the topic to a key and invoke
`handle_set_payload` on the raw (bytes) payload; unresolved topics are
dropped without effect. -/
def on_message (topic : String) (payload : Payload) (env : Env) (st : St) :
    St × Option PyErr :=
  if topic = CMD_TOPIC then
    handle_set_payload_raw "set" payload env st
  else if (CMD_TOPIC ++ "/").isPrefixOf topic then
    handle_set_payload_raw (topic.drop (CMD_TOPIC.length + 1)) payload env st
  else if topic = BASE_TOPIC ++ "/send_text" then
    handle_set_payload_raw "send_text" payload env st
  else
    match topicKeys.find? (fun k => topic = BASE_TOPIC ++ "/" ++ k ++ "/set") with
    | some k => handle_set_payload_raw k payload env st
    | none => (st, none)

/-! ### Frame lemmas for the session helpers and dict operations -/

@[simp] theorem publish_states_states (st : St) : (publish_states st).states = st.states := rfl
@[simp] theorem publish_states_last_text (st : St) :
    (publish_states st).last_text = st.last_text := rfl
@[simp] theorem publish_states_ws (st : St) : (publish_states st).ws = st.ws := rfl
@[simp] theorem publish_states_sends (st : St) : (publish_states st).sends = st.sends := rfl
@[simp] theorem publish_states_pings (st : St) : (publish_states st).pings = st.pings := rfl
@[simp] theorem publish_states_spawns (st : St) : (publish_states st).spawns = st.spawns := rfl

@[simp] theorem ws_connect_states (env : Env) (st : St) :
    (ws_connect env st).1.states = st.states := by
  unfold ws_connect
  by_cases h1 : st.ws <;> by_cases h2 : env.ping_ok <;> by_cases h3 : env.connect_ok <;>
    simp [h1, h2, h3]

@[simp] theorem ws_connect_last_text (env : Env) (st : St) :
    (ws_connect env st).1.last_text = st.last_text := by
  unfold ws_connect
  by_cases h1 : st.ws <;> by_cases h2 : env.ping_ok <;> by_cases h3 : env.connect_ok <;>
    simp [h1, h2, h3]

@[simp] theorem ws_connect_sends (env : Env) (st : St) :
    (ws_connect env st).1.sends = st.sends := by
  unfold ws_connect
  by_cases h1 : st.ws <;> by_cases h2 : env.ping_ok <;> by_cases h3 : env.connect_ok <;>
    simp [h1, h2, h3]

@[simp] theorem ws_connect_spawns (env : Env) (st : St) :
    (ws_connect env st).1.spawns = st.spawns := by
  unfold ws_connect
  by_cases h1 : st.ws <;> by_cases h2 : env.ping_ok <;> by_cases h3 : env.connect_ok <;>
    simp [h1, h2, h3]

@[simp] theorem ws_connect_pubs (env : Env) (st : St) :
    (ws_connect env st).1.pubs = st.pubs := by
  unfold ws_connect
  by_cases h1 : st.ws <;> by_cases h2 : env.ping_ok <;> by_cases h3 : env.connect_ok <;>
    simp [h1, h2, h3]

@[simp] theorem okEnv_ping : okEnv.ping_ok = true := rfl
@[simp] theorem okEnv_connect : okEnv.connect_ok = true := rfl
@[simp] theorem okEnv_send : okEnv.send_ok = true := rfl

@[simp] theorem ws_connect_ok_ws (st : St) : (ws_connect okEnv st).1.ws = true := by
  unfold ws_connect
  by_cases h1 : st.ws <;> simp [h1, okEnv]

@[simp] theorem ws_connect_ok_snd (st : St) : (ws_connect okEnv st).2 = true := by
  unfold ws_connect
  by_cases h1 : st.ws <;> simp [h1, okEnv]

@[simp] theorem ensure_server_states (env : Env) (st : St) :
    (ensure_server env st).states = st.states := by
  unfold ensure_server
  by_cases h : (ws_connect env st).2 <;> simp [h]

@[simp] theorem ensure_server_last_text (env : Env) (st : St) :
    (ensure_server env st).last_text = st.last_text := by
  unfold ensure_server
  by_cases h : (ws_connect env st).2 <;> simp [h]

@[simp] theorem ensure_server_sends (env : Env) (st : St) :
    (ensure_server env st).sends = st.sends := by
  unfold ensure_server
  by_cases h : (ws_connect env st).2 <;> simp [h]

@[simp] theorem ensure_server_pubs (env : Env) (st : St) :
    (ensure_server env st).pubs = st.pubs := by
  unfold ensure_server
  by_cases h : (ws_connect env st).2 <;> simp [h]

@[simp] theorem ensure_server_ok_ws (st : St) : (ensure_server okEnv st).ws = true := by
  unfold ensure_server; simp

@[simp] theorem ensure_server_ok_spawns (st : St) :
    (ensure_server okEnv st).spawns = st.spawns := by
  unfold ensure_server; simp

@[simp] theorem ws_send_states (env : Env) (p : JVal) (st : St) :
    (ws_send env p st).states = st.states := by
  unfold ws_send
  by_cases h1 : st.ws <;> by_cases h2 : env.send_ok <;>
    simp [h1, h2] <;> split <;> simp

@[simp] theorem ws_send_last_text (env : Env) (p : JVal) (st : St) :
    (ws_send env p st).last_text = st.last_text := by
  unfold ws_send
  by_cases h1 : st.ws <;> by_cases h2 : env.send_ok <;>
    simp [h1, h2] <;> split <;> simp

@[simp] theorem ws_send_spawns (env : Env) (p : JVal) (st : St) :
    (ws_send env p st).spawns = st.spawns := by
  unfold ws_send
  by_cases h1 : st.ws <;> by_cases h2 : env.send_ok <;>
    simp [h1, h2] <;> split <;> simp

@[simp] theorem ws_send_pubs (env : Env) (p : JVal) (st : St) :
    (ws_send env p st).pubs = st.pubs := by
  unfold ws_send
  by_cases h1 : st.ws <;> by_cases h2 : env.send_ok <;>
    simp [h1, h2] <;> split <;> simp

/-- With a healthy transport, `ws_send` appends exactly its payload. -/
@[simp] theorem ws_send_ok_sends (p : JVal) (st : St) :
    (ws_send okEnv p st).sends = st.sends ++ [p] := by
  unfold ws_send
  by_cases h1 : st.ws <;> simp [h1]

@[simp] theorem ws_send_pings (env : Env) (p : JVal) (st : St) :
    (ws_send env p st).pings = st.pings := by
  unfold ws_send ws_connect
  by_cases h1 : st.ws <;> by_cases h2 : env.connect_ok <;> by_cases h3 : env.send_ok <;>
    simp [h1, h2, h3]

/-- A value equal (as a Python string) to `a` is not equal to a different
string `b`. -/
theorem isStrEq_unique {v : JVal} {a b : String} (ha : v.isStrEq a = true)
    (hab : a ≠ b) : v.isStrEq b = false := by
  cases v <;> simp [JVal.isStrEq] at ha ⊢
  rintro rfl; exact hab ha.symm

/-- `ws_send` either appends its payload or leaves the log unchanged —
it never retries, so at most one copy is transmitted. -/
theorem ws_send_sends_cases (env : Env) (p : JVal) (st : St) :
    (ws_send env p st).sends = st.sends ++ [p] ∨ (ws_send env p st).sends = st.sends := by
  unfold ws_send
  by_cases h1 : st.ws <;> by_cases h2 : env.send_ok <;> simp [h1, h2] <;> split <;> simp

theorem lookupJ_dictSet_self (l : List (String × JVal)) (k : String) (v : JVal) :
    lookupJ (dictSet l k v) k = some v := by
  induction l with
  | nil => simp [dictSet, lookupJ]
  | cons kv rest ih =>
      by_cases h : kv.1 = k <;> simp [dictSet, lookupJ, h, ih]

theorem lookupJ_dictSet_ne (l : List (String × JVal)) (k k' : String) (v : JVal)
    (h : k' ≠ k) : lookupJ (dictSet l k v) k' = lookupJ l k' := by
  induction l with
  | nil => simp [dictSet, lookupJ, Ne.symm h]
  | cons kv rest ih =>
      by_cases h1 : kv.1 = k <;> by_cases h2 : kv.1 = k' <;>
        simp_all [dictSet, lookupJ]

theorem keysOf_dictSet (l : List (String × JVal)) (k : String) (v : JVal)
    (h : hasKeyL l k = true) : keysOf (dictSet l k v) = keysOf l := by
  induction l with
  | nil => simp [hasKeyL, lookupJ] at h
  | cons kv rest ih =>
      by_cases h1 : kv.1 = k
      · simp [dictSet, h1, keysOf]
      · simp only [hasKeyL, lookupJ, h1, if_neg] at h
        simp [dictSet, h1, keysOf, ih h] at ih ⊢
        exact ih h

theorem keysOf_mergeStates (s f : List (String × JVal)) :
    keysOf (mergeStates s f) = keysOf s := by
  induction f generalizing s with
  | nil => rfl
  | cons kv rest ih =>
      show keysOf (mergeStates (if hasKeyL s kv.1 then dictSet s kv.1 kv.2 else s) rest) = _
      by_cases h : hasKeyL s kv.1
      · rw [if_pos h, ih, keysOf_dictSet _ _ _ h]
      · rw [if_neg h, ih]

/-! ### The claims -/

/-- C3, counterexample: a connected session whose transport send fails is
NOT dropped — the handle survives (`ws_send` only logs; the claim that
the state becomes Disconnected is false). -/
theorem C3_counterexample :
    (ws_send ⟨true, true, false⟩ (mkCmd "clear" []) { initSt with ws := true }).ws = true :=
  rfl

/-- C3 (amended): for every message and every connected session state, if
the outbound send fails with a transport error the operation logs the
failure and returns without retrying — the state is completely unchanged;
in particular the connection handle is retained, not dropped. -/
theorem C3_amended (env : Env) (p : JVal) (st : St) (hws : st.ws = true)
    (hfail : env.send_ok = false) : ws_send env p st = st := by
  unfold ws_send
  simp [hws, hfail]

/-- C3 witness: the amended theorem at a concrete failing transport. -/
theorem C3_witness :
    ws_send ⟨true, true, false⟩ (mkCmd "clear" []) { initSt with ws := true } =
      { initSt with ws := true } :=
  C3_amended ⟨true, true, false⟩ (mkCmd "clear" []) { initSt with ws := true } rfl rfl

/-- C9: as long as the state mapping contains the `power` key (true from
initialization on), no branch of `handle_set_payload`, for any key,
payload, transport outcome or prior state, adds or removes a key of
`current_states`: the key sequence is invariant. -/
theorem C9_key_set_invariant (key payload : String) (env : Env) (st : St)
    (hpow : hasKeyL st.states "power" = true) :
    keysOf (handle_set_payload key payload env st).1.states = keysOf st.states := by
  unfold handle_set_payload handle_data
  dsimp only
  repeat' split
  all_goals try simp [keysOf_mergeStates]
  all_goals exact keysOf_dictSet _ _ _ (by assumption)

/-- C9 witness: the invariant at a concrete dispatch. -/
theorem C9_witness :
    hasKeyL initSt.states "power" = true ∧
    keysOf (handle_set_payload "brightness" "50" okEnv initSt).1.states =
      keysOf initSt.states :=
  ⟨rfl, C9_key_set_invariant "brightness" "50" okEnv initSt rfl⟩

/-- C8, counterexample: an unrecognized-key message whose payload is the
non-UTF-8 byte 0xFF raises UnicodeDecodeError at line 180's decode,
before the dispatch runs — the state is untouched and NO state publish
is triggered, refuting "a state publish is still triggered at the end of
dispatch". -/
theorem C8_counterexample :
    handle_set_payload_raw "bogus" (.bytes [255]) okEnv initSt =
      (initSt, some .unicodeDecodeError) :=
  rfl

/-- C8 (amended): a message whose resolved key is not "set", "power",
"send_text" nor a key of the state mapping leaves the whole state
(attributes, last text, transport logs) unchanged; if its payload is a
string or decodable bytes the dispatch raises nothing and is exactly a
state publish, which appends a non-empty batch of messages — but a
non-UTF-8 bytes payload instead raises UnicodeDecodeError before the
dispatch, and then no publish is triggered. -/
theorem C8_unknown_key (key : String) (payload : Payload) (env : Env) (st : St)
    (h1 : key ≠ "set") (h2 : key ≠ "power") (h3 : key ≠ "send_text")
    (h4 : hasKeyL st.states key = false) :
    (∀ s, decodeOf payload = some s →
      handle_set_payload_raw key payload env st = (publish_states st, none)) ∧
    (decodeOf payload = none →
      handle_set_payload_raw key payload env st = (st, some .unicodeDecodeError)) ∧
    (publish_states st).states = st.states ∧
    (publish_states st).last_text = st.last_text ∧
    (publish_states st).sends = st.sends ∧
    ∃ out, (publish_states st).pubs = st.pubs ++ out ∧ out ≠ [] := by
  refine ⟨?_, ?_, rfl, rfl, rfl, ?_⟩
  · intro s hs
    unfold handle_set_payload_raw
    rw [hs]
    unfold handle_set_payload handle_data
    simp [h1, h2, h3, h4]
  · intro hn
    unfold handle_set_payload_raw
    rw [hn]
  · refine ⟨(st.states.filterMap (fun kv =>
        (TOPICS_get kv.1).map (fun t => (t ++ "/state", JVal.str (pyStr kv.2))))) ++
        [(STATE_TOPIC, .str (json_dumps (.obj st.states))), (LAST_TEXT_TOPIC, st.last_text)],
      ?_, ?_⟩
    · simp [publish_states]
    · simp

/-- C8 witness: an unrecognized key at a concrete decodable input. -/
theorem C8_witness :
    handle_set_payload_raw "bogus" (.str "x") okEnv initSt = (publish_states initSt, none) ∧
    (publish_states initSt).sends = initSt.sends :=
  ⟨(C8_unknown_key "bogus" (.str "x") okEnv initSt (by decide) (by decide) (by decide)
      rfl).1 "x" rfl,
   (C8_unknown_key "bogus" (.str "x") okEnv initSt (by decide) (by decide) (by decide)
      rfl).2.2.2.2.1⟩

/-- Reaching the final `elif key in current_states` branch: for a key
distinct from the three specially handled ones and present in the state,
the dispatch stores the parsed payload under the key and publishes. -/
theorem handle_attr_branch (key payload : String) (env : Env) (st : St)
    (h1 : key ≠ "set") (h2 : key ≠ "send_text") (h3 : key ≠ "power")
    (hK : hasKeyL st.states key = true) :
    handle_set_payload key payload env st =
      (publish_states { st with states := dictSet st.states key (dataOf payload) }, none) := by
  unfold handle_set_payload handle_data
  simp [h1, h2, h3, hK]

/-- C6: setting a recognized attribute `A` (other than power / send_text)
via its discrete topic yields a state where `A` maps to the parsed set
value and every other key maps to its previous value. -/
theorem C6_attribute_set_frame (key payload : String) (env : Env) (st : St)
    (hA : key ∈ ["brightness", "speed", "animation", "color", "font",
                 "matrix_height", "font_size", "font_offset_x", "font_offset_y"])
    (hK : hasKeyL st.states key = true) :
    lookupJ (handle_set_payload key payload env st).1.states key = some (dataOf payload) ∧
    ∀ k', k' ≠ key →
      lookupJ (handle_set_payload key payload env st).1.states k' = lookupJ st.states k' := by
  have h1 : key ≠ "set" := by rintro rfl; simp at hA
  have h2 : key ≠ "send_text" := by rintro rfl; simp at hA
  have h3 : key ≠ "power" := by rintro rfl; simp at hA
  rw [handle_attr_branch key payload env st h1 h2 h3 hK]
  constructor
  · simpa using lookupJ_dictSet_self st.states key (dataOf payload)
  · intro k' hk'
    simpa using lookupJ_dictSet_ne st.states key k' (dataOf payload) hk'

/-- C6 witness: setting brightness to 50 stores `50` and leaves color
untouched. -/
theorem C6_witness :
    hasKeyL initSt.states "brightness" = true ∧
    lookupJ (handle_set_payload "brightness" "50" okEnv initSt).1.states "brightness" =
      some (.num 50) ∧
    lookupJ (handle_set_payload "brightness" "50" okEnv initSt).1.states "color" =
      lookupJ initSt.states "color" :=
  ⟨rfl,
   (C6_attribute_set_frame "brightness" "50" okEnv initSt (by decide) rfl).1,
   (C6_attribute_set_frame "brightness" "50" okEnv initSt (by decide) rfl).2 "color"
     (by decide)⟩

/-- C4: with power currently truthy and a healthy transport, an "OFF"
message on the power topic transmits exactly one command — the clear
command — and stores `power = False`. -/
theorem C4_power_off (st : St)
    (_hp : truthy ((lookupJ st.states "power").getD .null) = true) :
    (handle_set_payload "power" "OFF" okEnv st).1.sends = st.sends ++ [mkCmd "clear" []] ∧
    lookupJ (handle_set_payload "power" "OFF" okEnv st).1.states "power" =
      some (.bool false) := by
  have hd : dataOf "OFF" = .str "OFF" := rfl
  have hb : decide (pyUpper (pyStr (JVal.str "OFF")) = "ON" ∨
      pyUpper (pyStr (JVal.str "OFF")) = "1" ∨
      pyUpper (pyStr (JVal.str "OFF")) = "TRUE") = false := rfl
  unfold handle_set_payload handle_data
  rw [hd]
  dsimp only
  rw [hb]
  simp [lookupJ_dictSet_self]

/-- C4 witness: from the default state with power switched on. -/
theorem C4_witness :
    truthy ((lookupJ (dictSet initSt.states "power" (.bool true)) "power").getD .null) = true ∧
    (handle_set_payload "power" "OFF" okEnv
        { initSt with states := dictSet initSt.states "power" (.bool true) }).1.sends =
      [mkCmd "clear" []] :=
  ⟨rfl,
   (C4_power_off { initSt with states := dictSet initSt.states "power" (.bool true) } rfl).1⟩

/-- C5, counterexample: the token "On" is outside the claim's listed set
{"on","ON","1","true","TRUE"} yet is stored as power == True — the code
uppercases the token before testing, so mixed-case tokens also pass. -/
theorem C5_counterexample :
    ("On" ∉ ["on", "ON", "1", "true", "TRUE"]) ∧
    lookupJ (handle_set_payload "power" "On" okEnv initSt).1.states "power" =
      some (.bool true) :=
  ⟨by decide, rfl⟩

/-- C5 (amended): for every payload string on the power topic, the stored
power value is true exactly when the uppercased string form of the
JSON-parse-or-raw result of the payload is "ON", "1" or "TRUE"; all five
tokens of the claim normalize to true, but so do further tokens such as
"On" or "True", so it is not the case that every token outside the five
is stored as false. -/
theorem C5_amended (payload : String) (env : Env) (st : St) :
    lookupJ (handle_set_payload "power" payload env st).1.states "power" =
      some (.bool (decide (pyUpper (pyStr (dataOf payload)) = "ON" ∨
        pyUpper (pyStr (dataOf payload)) = "1" ∨
        pyUpper (pyStr (dataOf payload)) = "TRUE"))) := by
  unfold handle_set_payload handle_data
  dsimp only
  repeat' split
  all_goals simp_all [lookupJ_dictSet_self]

/-- C10: a structured-dialect message on the command topic (an object
with both "command" and "params") never changes the attribute mapping,
for every command name, transport outcome and prior state — in
particular forwarding led_on / led_off does not update stored power. -/
theorem C10_structured_frame (d : JVal) (env : Env) (st : St)
    (hobj : d.isObj = true)
    (hc : hasKeyL (objFields d) "command" = true)
    (hp : hasKeyL (objFields d) "params" = true) :
    (handle_data "set" d env st).1.states = st.states := by
  unfold handle_data
  dsimp only
  simp only [hobj, hc, hp]
  repeat' split
  all_goals simp_all

/-- C10 witness: forwarding a led_on command leaves the state mapping of
the default state unchanged. -/
theorem C10_witness :
    (handle_data "set" (mkCmd "led_on" []) okEnv initSt).1.states = initSt.states :=
  C10_structured_frame (mkCmd "led_on" []) okEnv initSt rfl rfl rfl

/-- C2, counterexample: the structured payload
`{"command":"clear","params":[]}` carries an explicit command name and
argument list, yet nothing is forwarded to the Session Manager — no
transport send occurs and no session is even ensured (the handle stays
absent), refuting "holds for every command name". -/
theorem C2_counterexample :
    (handle_set_payload "set" "\x7b\"command\":\"clear\",\"params\":[]\x7d" okEnv
        initSt).1.sends = [] ∧
    (handle_set_payload "set" "\x7b\"command\":\"clear\",\"params\":[]\x7d" okEnv
        initSt).1.ws = false :=
  ⟨rfl, rfl⟩

/-- C2 (amended): on the command topic only three command names are
recognized.  "led_on" and "led_off" are answered by transmitting the
fixed command with empty params (the incoming object is not forwarded
verbatim) and WITHOUT first ensuring a session (no liveness probe is
sent); "send_text" with a truthy well-formed params list is forwarded
verbatim after ensuring a session; every other command name produces no
transport send at all. -/
theorem C2_amended (d : JVal) (st : St)
    (hobj : d.isObj = true)
    (hcmd : hasKeyL (objFields d) "command" = true)
    (hps : hasKeyL (objFields d) "params" = true) :
    (((lookupJ (objFields d) "command").getD .null).isStrEq "led_on" = true →
      (handle_data "set" d okEnv st).1.sends = st.sends ++ [mkCmd "led_on" []] ∧
      (handle_data "set" d okEnv st).1.pings = st.pings) ∧
    (((lookupJ (objFields d) "command").getD .null).isStrEq "led_off" = true →
      (handle_data "set" d okEnv st).1.sends = st.sends ++ [mkCmd "led_off" []] ∧
      (handle_data "set" d okEnv st).1.pings = st.pings) ∧
    (∀ s rest, ((lookupJ (objFields d) "command").getD .null).isStrEq "send_text" = true →
      (lookupJ (objFields d) "params").getD .null = .arr (.str s :: rest) →
      (handle_data "set" d okEnv st).1.sends = st.sends ++ [d]) ∧
    (((lookupJ (objFields d) "command").getD .null).isStrEq "led_on" = false →
     ((lookupJ (objFields d) "command").getD .null).isStrEq "led_off" = false →
     ((lookupJ (objFields d) "command").getD .null).isStrEq "send_text" = false →
      (handle_data "set" d okEnv st).1.sends = st.sends) := by
  refine ⟨?_, ?_, ?_, ?_⟩
  · intro h
    unfold handle_data
    dsimp only
    simp [hobj, hcmd, hps, h]
  · intro h
    have hn : ((lookupJ (objFields d) "command").getD .null).isStrEq "led_on" = false :=
      isStrEq_unique h (by decide)
    unfold handle_data
    dsimp only
    simp [hobj, hcmd, hps, h, hn]
  · intro s rest h harr
    have hn1 : ((lookupJ (objFields d) "command").getD .null).isStrEq "led_on" = false :=
      isStrEq_unique h (by decide)
    have hn2 : ((lookupJ (objFields d) "command").getD .null).isStrEq "led_off" = false :=
      isStrEq_unique h (by decide)
    have ht : truthy ((lookupJ (objFields d) "params").getD .null) = true := by
      rw [harr]; rfl
    unfold handle_data
    dsimp only
    rw [harr]
    simp [hobj, hcmd, hps, h, hn1, hn2, truthy, subscript0]
  · intro h1 h2 h3
    unfold handle_data
    dsimp only
    simp [hobj, hcmd, hps, h1, h2, h3]

/-- C2 witness: a led_on structured command at the default state. -/
theorem C2_witness :
    (handle_data "set" (mkCmd "led_on" []) okEnv initSt).1.sends =
      initSt.sends ++ [mkCmd "led_on" []] ∧
    (handle_data "set" (mkCmd "led_on" []) okEnv initSt).1.pings = initSt.pings :=
  (C2_amended (mkCmd "led_on" []) initSt rfl rfl rfl).1 rfl

/-- C1, counterexample: processing the structured payload
`{"command":"send_text","params":["text=Hello","color=ff0000"]}` on the
command topic transmits the incoming object itself, whose first params
argument is "text=Hello" — not "Hello" as the claim requires. -/
theorem C1_counterexample :
    (handle_set_payload "set"
        "\x7b\"command\":\"send_text\",\"params\":[\"text=Hello\",\"color=ff0000\"]\x7d"
        okEnv initSt).1.sends =
      [.obj [("command", .str "send_text"),
             ("params", .arr [.str "text=Hello", .str "color=ff0000"])]] ∧
    JVal.str "text=Hello" ≠ JVal.str "Hello" :=
  ⟨rfl, by simp⟩

/-- C1 (amended): from every initial state (healthy transport), both
dialect payloads set Last Displayed Text to "Hello" and transmit exactly
one command; the flat payload's send has first params argument "Hello",
but the structured payload's send forwards the original params list, so
its first argument is "text=Hello". -/
theorem C1_amended (st : St) :
    (handle_set_payload "set"
        "\x7b\"command\":\"send_text\",\"params\":[\"text=Hello\",\"color=ff0000\"]\x7d"
        okEnv st).1.last_text = .str "Hello" ∧
    (handle_set_payload "set"
        "\x7b\"command\":\"send_text\",\"params\":[\"text=Hello\",\"color=ff0000\"]\x7d"
        okEnv st).1.sends =
      st.sends ++ [.obj [("command", .str "send_text"),
                         ("params", .arr [.str "text=Hello", .str "color=ff0000"])]] ∧
    (handle_set_payload "set" "\x7b\"send_text\":\"Hello\",\"color\":\"ff0000\"\x7d"
        okEnv st).1.last_text = .str "Hello" ∧
    ∃ rest, (handle_set_payload "set" "\x7b\"send_text\":\"Hello\",\"color\":\"ff0000\"\x7d"
        okEnv st).1.sends = st.sends ++ [mkCmd "send_text" (.str "Hello" :: rest)] := by
  have e1 : handle_set_payload "set"
      "\x7b\"command\":\"send_text\",\"params\":[\"text=Hello\",\"color=ff0000\"]\x7d"
      okEnv st =
      (publish_states (ws_send okEnv
        (.obj [("command", .str "send_text"),
               ("params", .arr [.str "text=Hello", .str "color=ff0000"])])
        (ensure_server okEnv { st with last_text := .str "Hello" })), none) := rfl
  have e2 : handle_set_payload "set" "\x7b\"send_text\":\"Hello\",\"color\":\"ff0000\"\x7d"
      okEnv st =
      (publish_states (ws_send okEnv
        (mkCmd "send_text" (.str "Hello" ::
          buildParamTail [("send_text", .str "Hello"), ("color", .str "ff0000")]
            (mergeStates st.states [("send_text", .str "Hello"), ("color", .str "ff0000")])))
        (ensure_server okEnv { st with
          states := mergeStates st.states [("send_text", .str "Hello"), ("color", .str "ff0000")],
          last_text := .str "Hello" })), none) := rfl
  rw [e1, e2]
  refine ⟨by simp, by simp, by simp,
    ⟨buildParamTail [("send_text", .str "Hello"), ("color", .str "ff0000")]
      (mergeStates st.states [("send_text", .str "Hello"), ("color", .str "ff0000")]),
     by simp⟩⟩

/-- Containment of the post-decode raising cases: once line 180 has
produced a payload string, an escaping exception can only come from the
structured send_text branch with a truthy params field. -/
theorem handle_raises_shape (key payload : String) (env : Env) (st : St)
    (herr : (handle_set_payload key payload env st).2 ≠ none) :
    key = "set" ∧ (dataOf payload).isObj = true ∧
    hasKeyL (objFields (dataOf payload)) "command" = true ∧
    hasKeyL (objFields (dataOf payload)) "params" = true ∧
    ((lookupJ (objFields (dataOf payload)) "command").getD .null).isStrEq "send_text" = true ∧
    truthy ((lookupJ (objFields (dataOf payload)) "params").getD .null) = true := by
  unfold handle_set_payload handle_data at herr
  dsimp only at herr
  repeat' split at herr
  all_goals simp_all

/-- C7, counterexample: the well-formed JSON payload
`{"command": "send_text", "params": [5]}` on the command topic raises an
AttributeError to the caller (the integer first param has no
`startswith`), refuting "never raises an error to its caller". -/
theorem C7_counterexample :
    (handle_set_payload_raw "set"
        (.str "\x7b\"command\": \"send_text\", \"params\": [5]\x7d") okEnv
        initSt).2 = some .attributeError :=
  rfl

/-- C7 (amended): message handling never raises to its caller except on
two families of inputs: (a) a bytes payload that is not valid UTF-8
raises UnicodeDecodeError at the decode step, for every key; and (b) a
command-topic payload parsing to an object that carries
"command" == "send_text" together with a present, truthy "params" field,
where ill-typed params escape as
TypeError/KeyError/IndexError/AttributeError.  Every other key/payload
combination degrades gracefully as claimed. -/
theorem C7_amended (key : String) (payload : Payload) (env : Env) (st : St)
    (herr : (handle_set_payload_raw key payload env st).2 ≠ none) :
    (decodeOf payload = none ∧
      handle_set_payload_raw key payload env st = (st, some .unicodeDecodeError)) ∨
    (∃ s, decodeOf payload = some s ∧
      key = "set" ∧ (dataOf s).isObj = true ∧
      hasKeyL (objFields (dataOf s)) "command" = true ∧
      hasKeyL (objFields (dataOf s)) "params" = true ∧
      ((lookupJ (objFields (dataOf s)) "command").getD .null).isStrEq "send_text" = true ∧
      truthy ((lookupJ (objFields (dataOf s)) "params").getD .null) = true) := by
  unfold handle_set_payload_raw at herr ⊢
  cases hdec : decodeOf payload with
  | none => left; exact ⟨rfl, rfl⟩
  | some s =>
      right
      rw [hdec] at herr
      exact ⟨s, rfl, handle_raises_shape key s env st herr⟩

/-- C7 witness: the amended theorem at a concrete raising input (the
non-UTF-8 byte 0xFF, raising UnicodeDecodeError on the power topic). -/
theorem C7_witness :
    ((handle_set_payload_raw "power" (.bytes [255]) okEnv initSt).2 ≠ none) ∧
    ((decodeOf (Payload.bytes [255]) = none ∧
       handle_set_payload_raw "power" (.bytes [255]) okEnv initSt =
         (initSt, some .unicodeDecodeError)) ∨
     (∃ s, decodeOf (Payload.bytes [255]) = some s ∧
       "power" = ("set" : String) ∧ (dataOf s).isObj = true ∧
       hasKeyL (objFields (dataOf s)) "command" = true ∧
       hasKeyL (objFields (dataOf s)) "params" = true ∧
       ((lookupJ (objFields (dataOf s)) "command").getD .null).isStrEq "send_text" = true ∧
       truthy ((lookupJ (objFields (dataOf s)) "params").getD .null) = true)) := by
  have h : (handle_set_payload_raw "power" (.bytes [255]) okEnv initSt).2 ≠ none := by
    rw [show (handle_set_payload_raw "power" (Payload.bytes [255]) okEnv initSt).2 =
        some PyErr.unicodeDecodeError from rfl]
    simp
  exact ⟨h, C7_amended "power" (.bytes [255]) okEnv initSt h⟩

end IPixel
